import Mathlib

/-!
Verification of the NeonBlue experimentation platform core against its
natural-language specification.  The definitions below are shallow
embeddings of the Python services in `app/services` and the API layer in
`app/api/v1/endpoints`; machine integers are modelled as `Nat` with
explicit reduction modulo `2 ^ 32` where the source relies on 32-bit
overflow, SQL `NULL` as `Option`, and fallible paths as `Option`/flags.
-/

namespace NeonBlue

/-! ## MurmurHash3 (x86, 32-bit)

`mmh3.hash(data, signed=False)` as used by `AssignmentService._calculate_variant`
and `AssignmentServiceV2._calculate_variant_key`: the standard MurmurHash3
x86 32-bit algorithm with seed 0 over the UTF-8 bytes of the input string. -/

def u32 : Nat := 2 ^ 32

def rotl32 (x r : Nat) : Nat :=
  ((x <<< r) ||| (x >>> (32 - r))) % u32

def mmC1 : Nat := 0xcc9e2d51

def mmC2 : Nat := 0x1b873593

/-- The per-block mixing of a 4-byte chunk `k`. -/
def mixK (k : Nat) : Nat :=
  rotl32 (k * mmC1 % u32) 15 * mmC2 % u32

/-- Folding one mixed block into the running hash. -/
def mixH (h k : Nat) : Nat :=
  (rotl32 ((h ^^^ mixK k) % u32) 13 * 5 + 0xe6546b64) % u32

/-- Consume the 4-byte little-endian blocks, returning the running hash and
the remaining tail of fewer than 4 bytes. -/
def mm3Body : Nat → List Nat → Nat × List Nat
  | h, b0 :: b1 :: b2 :: b3 :: rest =>
      mm3Body (mixH h (b0 + b1 * 256 + b2 * 65536 + b3 * 16777216)) rest
  | h, rest => (h, rest)

/-- Little-endian value of the 1 to 3 tail bytes. -/
def tailK : List Nat → Nat
  | [b0] => b0
  | [b0, b1] => b0 + b1 * 256
  | [b0, b1, b2] => b0 + b1 * 256 + b2 * 65536
  | _ => 0

/-- Final avalanche. -/
def mm3Finish (h len : Nat) : Nat :=
  let h1 := h ^^^ len
  let h2 := (h1 ^^^ (h1 >>> 16)) * 0x85ebca6b % u32
  let h3 := (h2 ^^^ (h2 >>> 13)) * 0xc2b2ae35 % u32
  h3 ^^^ (h3 >>> 16)

/-- MurmurHash3 x86 32-bit of a byte list with seed 0
(`mmh3.hash(_, signed=False)` with the default seed). -/
def murmur3_32 (bytes : List Nat) : Nat :=
  let body := mm3Body 0 bytes
  let h := if body.2 = [] then body.1 else body.1 ^^^ mixK (tailK body.2)
  mm3Finish h bytes.length

/-- UTF-8 encoding of one character (Python `str.encode("utf-8")`). -/
def utf8Char (c : Char) : List Nat :=
  let n := c.toNat
  if n < 0x80 then [n]
  else if n < 0x800 then
    [0xC0 ||| (n >>> 6), 0x80 ||| (n &&& 0x3F)]
  else if n < 0x10000 then
    [0xE0 ||| (n >>> 12), 0x80 ||| ((n >>> 6) &&& 0x3F), 0x80 ||| (n &&& 0x3F)]
  else
    [0xF0 ||| (n >>> 18), 0x80 ||| ((n >>> 12) &&& 0x3F),
     0x80 ||| ((n >>> 6) &&& 0x3F), 0x80 ||| (n &&& 0x3F)]

/-- UTF-8 bytes of a string. -/
def utf8 (s : String) : List Nat :=
  (s.data.map utf8Char).flatten

/-! ## Data model

From `app/models/models.py` (the fields the claims mention; SQL `NULL`
becomes `Option`). -/

inductive ExpStatus where
  | draft
  | active
  | paused
  | completed
  | archived
deriving DecidableEq, Repr

structure Variant where
  id : Nat
  key : String
  allocation_pct : Nat
  is_control : Bool
deriving DecidableEq, Repr

structure Experiment where
  id : Nat
  key : String
  seed : String
  status : ExpStatus
  version : Nat
  variants : List Variant
deriving DecidableEq, Repr

/-- `settings.assignment_bucket_size` default (`app/core/config.py`). -/
def bucketSize : Nat := 10000

/-! ## A stable sort

Python's `sorted` and SQL `ORDER BY` are stable sorts; insertion sort is
used here so results evaluate inside the kernel. -/

def insertSorted {α : Type} (le : α → α → Bool) (x : α) :
    List α → List α
  | [] => [x]
  | y :: ys => if le x y then x :: y :: ys else y :: insertSorted le x ys

def sortBy {α : Type} (le : α → α → Bool) : List α → List α
  | [] => []
  | x :: xs => insertSorted le x (sortBy le xs)

/-! ## Assignment hashing

`AssignmentService._calculate_variant` (`app/services/assignment.py`): the
bucket is `mmh3.hash(f"{user_id}:{experiment.seed}:{self.hash_seed}",
signed=False) % self.bucket_size`; variants are sorted by id and the first
whose cumulative range exceeds the bucket is chosen, with the last variant
as fallback. -/

def hashBucketV1 (hashSeed : String) (seed uid : String) : Nat :=
  murmur3_32 (utf8 (uid ++ ":" ++ seed ++ ":" ++ hashSeed)) % bucketSize

/-- `int(variant.allocation_pct * self.bucket_size / 100)`: for
`allocation_pct * bucket_size ≤ 10 ^ 6` the float division and `int`
truncation coincide with natural-number division. -/
def variantBuckets (v : Variant) : Nat :=
  v.allocation_pct * bucketSize / 100

def sortVariantsById (vs : List Variant) : List Variant :=
  sortBy (fun a b => decide (a.id ≤ b.id)) vs

/-- The `for variant in variants: ... if bucket < cumulative: return variant`
loop, carrying the running cumulative bucket count. -/
def selectByBucket (bucket : Nat) : Nat → List Variant → Option Variant
  | _, [] => none
  | cum, v :: vs =>
      if bucket < cum + variantBuckets v then some v
      else selectByBucket bucket (cum + variantBuckets v) vs

def calculateVariant (hashSeed : String) (e : Experiment) (uid : String) :
    Option Variant :=
  let bucket := hashBucketV1 hashSeed e.seed uid
  let vs := sortVariantsById e.variants
  match selectByBucket bucket 0 vs with
  | some v => some v
  | none => vs.getLast?

/-- Hash input of `AssignmentServiceV2._calculate_variant_key`
(`app/services/assignment_v2.py`):
`f"{experiment['id']}:{user_id}:{experiment.get('seed', self.hash_seed)}"`. -/
def hashInputV2 (hashSeed : String) (expId : Nat) (uid : String)
    (seed : Option String) : String :=
  Nat.repr expId ++ ":" ++ uid ++ ":" ++ seed.getD hashSeed

def hashBucketV2 (hashSeed : String) (expId : Nat) (uid : String)
    (seed : Option String) : Nat :=
  murmur3_32 (utf8 (hashInputV2 hashSeed expId uid seed)) % bucketSize

/-- Cumulative bucket count of a variant list. -/
def cumBuckets (vs : List Variant) : Nat :=
  (vs.map variantBuckets).sum

/-! ## Assignments, events and the outbox

Rows as written by `AssignmentService._create_assignment`,
`EventService.record_event` and `BulkOperationsService.record_bulk_events`.
Timestamps are modelled as `Int`. -/

structure AssignmentDict where
  experiment_id : Nat
  user_id : String
  variant_id : Nat
  variant_key : String
  assigned_at : Int
  enrolled_at : Option Int
  version : Nat
  source : String
deriving DecidableEq, Repr

inductive OutboxType where
  | eventCreated
  | assignmentCreated
  | assignmentEnrolled
deriving DecidableEq, Repr, BEq

structure OutboxRow where
  id : Nat
  aggregate_id : String
  aggregate_type : String
  event_type : OutboxType
  payloadIsValid : Option Bool
  created_at : Int
  processed_at : Option Int
deriving DecidableEq, Repr

structure EventRow where
  id : Nat
  experiment_id : Nat
  user_id : String
  variant_id : Option Nat
  event_type : String
  timestamp : Int
  assignment_at : Option Int
  properties : List (String × String)
  session_id : Option String
  request_id : Option String
deriving DecidableEq, Repr

/-- `f"{experiment_id}:{user_id}"`, the outbox aggregate id of an assignment. -/
def assignmentAggId (expId : Nat) (uid : String) : String :=
  Nat.repr expId ++ ":" ++ uid

/-- `AssignmentService._create_assignment`: requires an Active experiment
with variants, assigns via the hasher, and stages the assignment row
together with an `assignment.created` outbox row (plus an
`assignment.enrolled` row when enrolling), all committed in one
transaction.  Returns `none` when the experiment is missing, not Active or
has no variants (nothing is committed then). -/
def createAssignmentTx (hashSeed : String) (e : Experiment) (uid : String)
    (enroll : Bool) (now : Int) : Option (AssignmentDict × List OutboxRow) :=
  if e.status = ExpStatus.active then
    match calculateVariant hashSeed e uid with
    | none => none
    | some v =>
        let a : AssignmentDict :=
          { experiment_id := e.id, user_id := uid, variant_id := v.id,
            variant_key := v.key, assigned_at := now,
            enrolled_at := if enroll then some now else none,
            version := e.version, source := "hash" }
        let created : OutboxRow :=
          { id := 0, aggregate_id := assignmentAggId e.id uid,
            aggregate_type := "assignment",
            event_type := OutboxType.assignmentCreated,
            payloadIsValid := none, created_at := now, processed_at := none }
        let enrolled : OutboxRow :=
          { id := 1, aggregate_id := assignmentAggId e.id uid,
            aggregate_type := "assignment",
            event_type := OutboxType.assignmentEnrolled,
            payloadIsValid := none, created_at := now, processed_at := none }
        some (a, if enroll then [created, enrolled] else [created])
  else none

/-- The `Event` row staged by `EventService.record_event`: `variant_id` and
`assignment_at` are denormalized from the assignment dictionary. -/
def mkEventRow (eid : Nat) (a : AssignmentDict) (expId : Nat) (uid : String)
    (etype : String) (ts : Int) (props : List (String × String))
    (sid rid : Option String) : EventRow :=
  { id := eid, experiment_id := expId, user_id := uid,
    variant_id := some a.variant_id, event_type := etype, timestamp := ts,
    assignment_at := some a.assigned_at, properties := props,
    session_id := sid, request_id := rid }

/-- The `event.created` outbox row staged by `EventService.record_event`;
its payload carries `is_valid = (event_timestamp >= assignment_at)`. -/
def mkEventOutbox (oid : Nat) (createdAt : Int) (eid : Nat)
    (a : AssignmentDict) (ts : Int) : OutboxRow :=
  { id := oid, aggregate_id := Nat.repr eid, aggregate_type := "event",
    event_type := OutboxType.eventCreated,
    payloadIsValid := some (decide (a.assigned_at ≤ ts)),
    created_at := createdAt, processed_at := none }

/-- Number of outbox rows matching an `(aggregate_type, aggregate_id,
event_type)` triple. -/
def countMatching (obs : List OutboxRow) (aty aid : String)
    (ety : OutboxType) : Nat :=
  (obs.filter (fun o =>
    decide (o.aggregate_type = aty ∧ o.aggregate_id = aid ∧
      o.event_type = ety))).length

/-! ## Database state and the event write paths -/

structure DB where
  users : List String
  experiments : List Experiment
  assignments : List AssignmentDict
  events : List EventRow
  outbox : List OutboxRow
deriving DecidableEq, Repr

def findAssignment (db : DB) (expId : Nat) (uid : String) :
    Option AssignmentDict :=
  db.assignments.find? (fun a =>
    a.experiment_id == expId && a.user_id == uid)

def findExperiment (db : DB) (expId : Nat) : Option Experiment :=
  db.experiments.find? (fun e => e.id == expId)

/-- Input row of a batch request (`EventCreate` fields used here). -/
structure BulkEventIn where
  experiment_id : Nat
  user_id : String
  event_type : String
  timestamp : Int
  properties : List (String × String)
  session_id : Option String
  request_id : Option String
deriving DecidableEq, Repr

/-- `EventService.record_event` acting on the database state: resolve the
assignment (creating it — and enrolling on `"exposure"` — if needed), then
commit the event row plus its `event.created` outbox row.  Failures
(missing/inactive experiment → `ValueError` before any insert; missing
user → foreign-key violation at commit, rolled back) leave the database
unchanged and return `false`. -/
def recordEventOnDB (hashSeed : String) (db : DB) (eid : Nat)
    (ev : BulkEventIn) (now : Int) : DB × Bool :=
  match findAssignment db ev.experiment_id ev.user_id with
  | some a =>
      let enrollNow := ev.event_type == "exposure" && a.enrolled_at == none
      let a2 := if enrollNow then { a with enrolled_at := some now } else a
      let enrolledRow : List OutboxRow :=
        if enrollNow then
          [{ id := 1, aggregate_id := assignmentAggId ev.experiment_id ev.user_id,
             aggregate_type := "assignment",
             event_type := OutboxType.assignmentEnrolled,
             payloadIsValid := none, created_at := now, processed_at := none }]
        else []
      if db.users.contains ev.user_id then
        ({ db with
             assignments := db.assignments.map (fun x =>
               if x.experiment_id == ev.experiment_id &&
                   x.user_id == ev.user_id then a2 else x),
             events := db.events ++
               [mkEventRow eid a2 ev.experiment_id ev.user_id ev.event_type
                 ev.timestamp ev.properties ev.session_id ev.request_id],
             outbox := db.outbox ++ enrolledRow ++
               [mkEventOutbox eid now eid a2 ev.timestamp] }, true)
      else (db, false)
  | none =>
      match findExperiment db ev.experiment_id with
      | none => (db, false)
      | some e =>
          match createAssignmentTx hashSeed e ev.user_id
              (ev.event_type == "exposure") now with
          | none => (db, false)
          | some (a, obs) =>
              if db.users.contains ev.user_id then
                ({ db with
                     assignments := db.assignments ++ [a],
                     events := db.events ++
                       [mkEventRow eid a ev.experiment_id ev.user_id
                         ev.event_type ev.timestamp ev.properties
                         ev.session_id ev.request_id],
                     outbox := db.outbox ++ obs ++
                       [mkEventOutbox eid now eid a ev.timestamp] }, true)
              else (db, false)

/-- `EventService.record_batch_events`: a Python loop that calls
`record_event` — which commits — once per input row, collecting per-row
successes and errors.  Returns the final state with the counts
`(recorded, failed)`. -/
def recordBatchEventsLoop (hashSeed : String) :
    DB → Nat → List BulkEventIn → Int → DB × Nat × Nat
  | db, _, [], _ => (db, 0, 0)
  | db, eidBase, ev :: rest, now =>
      let step := recordEventOnDB hashSeed db eidBase ev now
      let tailRes := recordBatchEventsLoop hashSeed step.1 (eidBase + 1) rest now
      (tailRes.1,
        (if step.2 then 1 else 0) + tailRes.2.1,
        (if step.2 then 0 else 1) + tailRes.2.2)

/-- Result shape of `BulkOperationsService.record_bulk_events`
(`recorded`, `failed`, number of entries in `errors`). -/
structure BulkResult where
  recorded : Nat
  failed : Nat
  errors : Nat
deriving DecidableEq, Repr

/-- Transaction outcome of the bulk path: the response plus the rows that
ended up committed. -/
structure BulkTx where
  result : BulkResult
  events : List EventRow
  outbox : List OutboxRow
deriving DecidableEq, Repr

/-- An event row as inserted by `BulkOperationsService.record_bulk_events`:
the column list is `(experiment_id, user_id, event_type, properties,
timestamp, session_id, request_id, created_at, updated_at)`, so
`variant_id` and `assignment_at` keep their `NULL` defaults. -/
def bulkEventRow (eid : Nat) (ev : BulkEventIn) : EventRow :=
  { id := eid, experiment_id := ev.experiment_id, user_id := ev.user_id,
    variant_id := none, event_type := ev.event_type,
    timestamp := ev.timestamp, assignment_at := none,
    properties := ev.properties, session_id := ev.session_id,
    request_id := ev.request_id }

/-- `BulkOperationsService.record_bulk_events`: one set-oriented `INSERT`
in one transaction, no outbox insert.  A row whose `user_id` violates the
`events.user_id → users.user_id` foreign key aborts the whole statement;
the `except` branch rolls back and reports `recorded = 0`,
`failed = len(events)` and a single batch-level error. -/
def recordBulkEventsTx (users : List String) (evs : List BulkEventIn) :
    BulkTx :=
  if evs = [] then
    { result := { recorded := 0, failed := 0, errors := 0 },
      events := [], outbox := [] }
  else if evs.all (fun ev => users.contains ev.user_id) then
    { result := { recorded := evs.length, failed := 0, errors := 0 },
      events := (evs.enum.map (fun p => bulkEventRow p.1 p.2)),
      outbox := [] }
  else
    { result := { recorded := 0, failed := evs.length, errors := 1 },
      events := [], outbox := [] }

/-! ## Outbox processor (`OutboxProcessor.process_outbox`) -/

/-- `self.batch_size` of `OutboxProcessor`. -/
def outboxBatchSize : Nat := 100

/-- The lease query: rows with `processed_at IS NULL`, skipping rows held
by another worker's row-level lock, ordered by `created_at` (the code's
`order_by`), limited to `batch_size`. -/
def leaseRows (locked : Nat → Bool) (rows : List OutboxRow) :
    List OutboxRow :=
  ((sortBy (fun a b => decide (a.created_at ≤ b.created_at))
      (rows.filter (fun r => r.processed_at == none && !locked r.id))).take
    outboxBatchSize)

/-- One run of the processor: publish each leased row; only rows whose
publish succeeded get `processed_at := now`; failures are logged and the
row is left untouched. -/
def processOutbox (locked : Nat → Bool) (publishOk : Nat → Bool) (now : Int)
    (rows : List OutboxRow) : List OutboxRow :=
  let leased := leaseRows locked rows
  rows.map (fun r =>
    if leased.any (fun l => l.id == r.id) && publishOk r.id then
      { r with processed_at := some now }
    else r)

/-! ## The single-event endpoint (`POST /events`) -/

/-- Parameter names of `EventServiceV2.record_event`
(`app/services/events_v2.py`). -/
def eventServiceV2RecordEventParams : List String :=
  ["db", "experiment_id", "user_id", "event_type", "properties", "value"]

/-- Keyword-argument names used at the call site in the `record_event`
handler (`app/api/v1/endpoints/events.py`). -/
def recordEventEndpointKwargs : List String :=
  ["db", "experiment_id", "user_id", "event_type", "properties",
   "timestamp", "session_id", "request_id"]

/-- Python keyword binding for a function without `**kwargs`: the call
raises `TypeError` before the body runs unless every keyword matches a
parameter name. -/
def pythonKwBindOk (params kwargs : List String) : Bool :=
  kwargs.all (fun k => params.contains k)

/-- The `POST /events` handler: if the keyword binding of the call to
`EventServiceV2.record_event` succeeded the service would run
(`happyPath`); a `TypeError` is not a `ValueError`, so it falls to the
generic handler which returns HTTP 500 with the database untouched. -/
def recordEventEndpoint (happyPath : DB → DB × Nat) (db : DB) : DB × Nat :=
  if pythonKwBindOk eventServiceV2RecordEventParams
      recordEventEndpointKwargs then
    happyPath db
  else
    (db, 500)

/-! ## Experiment lifecycle (`POST /experiments/{id}/activate`) -/

inductive ActivateResult where
  | notFound
  | alreadyActive
  | ok (version : Nat)
deriving DecidableEq, Repr

/-- `activate_experiment` (`app/api/v1/endpoints/experiments.py`): 404 when
missing, 400 when already Active, otherwise set status to Active and
increment `version` — with no validation of the variant allocations. -/
def activateExperiment (exps : List Experiment) (expId : Nat) :
    List Experiment × ActivateResult :=
  match exps.find? (fun e => e.id == expId) with
  | none => (exps, ActivateResult.notFound)
  | some e =>
      if e.status = ExpStatus.active then (exps, ActivateResult.alreadyActive)
      else
        let e2 := { e with status := ExpStatus.active,
                           version := e.version + 1 }
        (exps.map (fun x => if x.id == expId then e2 else x),
         ActivateResult.ok e2.version)

/-- Variant payload of `ExperimentCreate` (`app/schemas/experiments.py`). -/
structure VariantCreate where
  key : String
  allocation_pct : Nat
  is_control : Bool
deriving DecidableEq, Repr

/-- `ExperimentCreate.validate_variants`: allocations must sum to 100,
exactly one variant must be the control, and keys must be unique.  This
runs at creation time only. -/
def validateVariants (vs : List VariantCreate) : Bool :=
  ((vs.map (fun v => v.allocation_pct)).sum == 100) &&
    ((vs.filter (fun v => v.is_control)).length == 1) &&
    ((vs.map (fun v => v.key)).eraseDups.length = (vs.map (fun v => v.key)).length)

/-! ## Analytics: post-assignment filter, Wilson interval, min-sample -/

/-- The row-level `WHERE` of `AnalyticsService._get_postgres_results`:
experiment match, `timestamp` in window, `timestamp >= assignment_at`
(SQL `NULL` compares false), optional event-type and property filters. -/
def postgresEventFilter (expId : Nat) (startD endD : Int)
    (eventTypes : Option (List String)) (filters : List (String × String))
    (r : EventRow) : Bool :=
  r.experiment_id == expId && decide (startD ≤ r.timestamp) &&
    decide (r.timestamp ≤ endD) &&
    (match r.assignment_at with
     | none => false
     | some t => decide (t ≤ r.timestamp)) &&
    (match eventTypes with
     | none => true
     | some tys => tys.contains r.event_type) &&
    (filters.all (fun kv => r.properties.lookup kv.1 == some kv.2))

/-- `AnalyticsService._calculate_confidence_interval` (analytics.py):
Wilson score interval, endpoints clamped to `[0, 1]`.  The parameter `z`
stands for `scipy.stats.norm.ppf((1 + confidence) / 2)`, which is
nonnegative for every confidence level in `[0, 1)`. -/
noncomputable def wilsonCI (s n : Nat) (z : ℝ) : ℝ × ℝ :=
  if n = 0 then (0, 0)
  else
    let p : ℝ := (s : ℝ) / (n : ℝ)
    let denominator : ℝ := 1 + z ^ 2 / (n : ℝ)
    let center := (p + z ^ 2 / (2 * (n : ℝ))) / denominator
    let margin := z * Real.sqrt (p * (1 - p) / (n : ℝ) +
      z ^ 2 / (4 * (n : ℝ) ^ 2)) / denominator
    (max 0 (center - margin), min 1 (center + margin))

/-- `AnalyticsServiceV2._calculate_confidence_interval` (analytics_v2.py):
the same Wilson formula but the endpoints are multiplied by 100 and
clamped to `[0, 100]`. -/
noncomputable def wilsonCIV2 (s n : Nat) (z : ℝ) : ℝ × ℝ :=
  if n = 0 then (0, 0)
  else
    let p_hat : ℝ := (s : ℝ) / (n : ℝ)
    let denominator : ℝ := 1 + z ^ 2 / (n : ℝ)
    let center := (p_hat + z ^ 2 / (2 * (n : ℝ))) / denominator
    let margin := z * Real.sqrt ((p_hat * (1 - p_hat) +
      z ^ 2 / (4 * (n : ℝ))) / (n : ℝ)) / denominator
    (max 0 ((center - margin) * 100), min 100 ((center + margin) * 100))

/-- A `(variant_id, time_bucket, event_type)` aggregation group of the v1
results query. -/
structure GroupRow where
  variant_id : Nat
  event_type : String
  event_count : Nat
  unique_users : Nat
deriving DecidableEq, Repr

/-- The `HAVING count(distinct user_id) >= min_sample` clause: groups
below the threshold are dropped from the query result entirely. -/
def havingMinSample (minSample : Nat) (rows : List GroupRow) :
    List GroupRow :=
  rows.filter (fun r => decide (minSample ≤ r.unique_users))

/-- `users = sum(r.unique_users for r in variant_rows)` over the rows the
query returned for a variant. -/
def variantUniqueUsers (rows : List GroupRow) (vid : Nat) : Nat :=
  ((rows.filter (fun r => r.variant_id == vid)).map
    (fun r => r.unique_users)).sum

/-- A per-variant metrics record as returned by the stored procedure to
`AnalyticsServiceV2.get_experiment_results`. -/
structure VariantMetricsIn where
  variant_key : String
  variant_name : String
  is_control : Bool
  unique_users : Nat
  total_events : Nat
  conversion_count : Nat
deriving DecidableEq, Repr

/-- A processed variant entry of the v2 results payload. -/
structure VariantOut where
  variant_key : String
  is_control : Bool
  unique_users : Nat
  total_events : Nat
  conversions : Nat
  withCI : Bool
deriving DecidableEq, Repr

def toVariantOut (includeCI : Bool) (v : VariantMetricsIn) : VariantOut :=
  { variant_key := v.variant_key, is_control := v.is_control,
    unique_users := v.unique_users, total_events := v.total_events,
    conversions := v.conversion_count,
    withCI := includeCI && decide (0 < v.unique_users) }

/-- The variant loop of `AnalyticsServiceV2.get_experiment_results`:
`if variant["unique_users"] < min_sample: continue` skips the variant
before anything about it is added to the results. -/
def processVariantsV2 (includeCI : Bool) (minSample : Nat)
    (ms : List VariantMetricsIn) : List VariantOut :=
  ms.filterMap (fun v =>
    if v.unique_users < minSample then none
    else some (toVariantOut includeCI v))

/-- Sum of the reported `unique_users` raw totals over the variants that
made it into the results. -/
def reportedUsers (out : List VariantOut) : Nat :=
  (out.map (fun d => d.unique_users)).sum

/-! ## Concrete instances used by counterexamples and witnesses -/

def demoControl : Variant :=
  { id := 1, key := "control", allocation_pct := 33, is_control := true }

def demoGreen : Variant :=
  { id := 2, key := "green", allocation_pct := 33, is_control := false }

def demoRed : Variant :=
  { id := 3, key := "red", allocation_pct := 34, is_control := false }

def demoExp : Experiment :=
  { id := 1, key := "demo_color", seed := "s1", status := ExpStatus.active,
    version := 1, variants := [demoControl, demoGreen, demoRed] }

/-- A Draft experiment whose allocations sum to 90 with no control: the
creation-time validator would reject it, yet activation succeeds on it. -/
def demoDraftExp : Experiment :=
  { id := 2, key := "bad_alloc", seed := "s2", status := ExpStatus.draft,
    version := 3,
    variants :=
      [{ id := 4, key := "a", allocation_pct := 50, is_control := false },
       { id := 5, key := "b", allocation_pct := 40, is_control := false }] }

def demoDB : DB :=
  { users := ["u1"], experiments := [demoExp], assignments := [],
    events := [], outbox := [] }

def bevGood : BulkEventIn :=
  { experiment_id := 1, user_id := "u1", event_type := "click",
    timestamp := 5, properties := [], session_id := none,
    request_id := none }

def bevGhost : BulkEventIn :=
  { bevGood with user_id := "ghost" }

def demoAsgDict : AssignmentDict :=
  { experiment_id := 1, user_id := "u1", variant_id := 3,
    variant_key := "red", assigned_at := 3, enrolled_at := none,
    version := 1, source := "hash" }

def obRow1 : OutboxRow :=
  { id := 1, aggregate_id := "x", aggregate_type := "event",
    event_type := OutboxType.eventCreated, payloadIsValid := none,
    created_at := 2, processed_at := none }

def obRow2 : OutboxRow :=
  { obRow1 with id := 2, created_at := 1 }

def demoOutboxRows : List OutboxRow := [obRow1, obRow2]

def vmA : VariantMetricsIn :=
  { variant_key := "A", variant_name := "A", is_control := true,
    unique_users := 500, total_events := 900, conversion_count := 100 }

def vmB : VariantMetricsIn :=
  { variant_key := "B", variant_name := "B", is_control := false,
    unique_users := 50, total_events := 80, conversion_count := 10 }

def demoMetrics : List VariantMetricsIn := [vmA, vmB]

def demoCreatedAsg : AssignmentDict :=
  { experiment_id := 1, user_id := "user_42", variant_id := 3,
    variant_key := "red", assigned_at := 100, enrolled_at := some 100,
    version := 1, source := "hash" }

def demoCreatedObs : List OutboxRow :=
  [{ id := 0, aggregate_id := "1:user_42", aggregate_type := "assignment",
     event_type := OutboxType.assignmentCreated, payloadIsValid := none,
     created_at := 100, processed_at := none },
   { id := 1, aggregate_id := "1:user_42", aggregate_type := "assignment",
     event_type := OutboxType.assignmentEnrolled, payloadIsValid := none,
     created_at := 100, processed_at := none }]

def demoFilteredRow : EventRow :=
  mkEventRow 7 demoAsgDict 1 "u1" "conversion" 5 [] none none

def grA : GroupRow :=
  { variant_id := 1, event_type := "conversion", event_count := 120,
    unique_users := 110 }

def grB : GroupRow :=
  { variant_id := 2, event_type := "conversion", event_count := 20,
    unique_users := 30 }

def demoGroupRows : List GroupRow := [grA, grB]

/-! # Theorems -/

/-! ## Sort lemmas -/

theorem insertSorted_cons {α : Type} (le : α → α → Bool) (x y : α)
    (ys : List α) :
    insertSorted le x (y :: ys) =
      if le x y then x :: y :: ys else y :: insertSorted le x ys := rfl

theorem mem_insertSorted {α : Type} (le : α → α → Bool) (x a : α)
    (l : List α) : a ∈ insertSorted le x l ↔ a = x ∨ a ∈ l := by
  induction l with
  | nil => simp [insertSorted]
  | cons y ys ih =>
      rw [insertSorted_cons]
      by_cases h : le x y = true
      · rw [if_pos h]
        simp [List.mem_cons]
      · rw [if_neg h]
        simp only [List.mem_cons, ih]
        tauto

theorem mem_sortBy {α : Type} (le : α → α → Bool) (a : α) (l : List α) :
    a ∈ sortBy le l ↔ a ∈ l := by
  induction l with
  | nil => simp [sortBy]
  | cons x xs ih =>
      simp [sortBy, mem_insertSorted, ih]

theorem length_insertSorted {α : Type} (le : α → α → Bool) (x : α)
    (l : List α) : (insertSorted le x l).length = l.length + 1 := by
  induction l with
  | nil => simp [insertSorted]
  | cons y ys ih =>
      rw [insertSorted_cons]
      by_cases h : le x y = true
      · rw [if_pos h]
        simp
      · rw [if_neg h]
        simp [ih]

theorem length_sortBy {α : Type} (le : α → α → Bool) (l : List α) :
    (sortBy le l).length = l.length := by
  induction l with
  | nil => rfl
  | cons x xs ih => simp [sortBy, length_insertSorted, ih]

theorem pairwise_insertSorted {α : Type} (le : α → α → Bool)
    (htrans : ∀ a b c, le a b = true → le b c = true → le a c = true)
    (htotal : ∀ a b, le a b = true ∨ le b a = true) (x : α) (l : List α)
    (hl : l.Pairwise (fun a b => le a b = true)) :
    (insertSorted le x l).Pairwise (fun a b => le a b = true) := by
  induction hl with
  | nil => simp [insertSorted]
  | @cons y ys hy hys ih =>
      rw [insertSorted_cons]
      by_cases h : le x y = true
      · rw [if_pos h]
        refine List.pairwise_cons.mpr ⟨?_, List.pairwise_cons.mpr ⟨hy, hys⟩⟩
        intro b hb
        rcases List.mem_cons.mp hb with hb | hb
        · rw [hb]; exact h
        · exact htrans x y b h (hy b hb)
      · rw [if_neg h]
        refine List.pairwise_cons.mpr ⟨?_, ih⟩
        intro b hb
        rcases (mem_insertSorted le x b ys).mp hb with hb | hb
        · rw [hb]
          rcases htotal x y with hxy | hyx
          · exact absurd hxy h
          · exact hyx
        · exact hy b hb

theorem pairwise_sortBy {α : Type} (le : α → α → Bool)
    (htrans : ∀ a b c, le a b = true → le b c = true → le a c = true)
    (htotal : ∀ a b, le a b = true ∨ le b a = true) (l : List α) :
    (sortBy le l).Pairwise (fun a b => le a b = true) := by
  induction l with
  | nil => simp [sortBy]
  | cons x xs ih => exact pairwise_insertSorted le htrans htotal x _ ih

/-! ## C6: the single-event endpoint always fails -/

/-- C6 (confirmed): every request to `POST /events` fails before any event
row is written — the handler invokes `EventServiceV2.record_event` with the
keyword arguments `timestamp`, `session_id` and `request_id`, none of
which occur in that method's parameter list, so the call raises
`TypeError` and the handler answers HTTP 500 with the database unchanged,
whatever the service would have done. -/
theorem C6_record_event_endpoint_always_fails :
    pythonKwBindOk eventServiceV2RecordEventParams
        recordEventEndpointKwargs = false ∧
      ∀ (happyPath : DB → DB × Nat) (db : DB),
        recordEventEndpoint happyPath db = (db, 500) := by
  have h : pythonKwBindOk eventServiceV2RecordEventParams
      recordEventEndpointKwargs = false := by decide
  refine ⟨h, ?_⟩
  intro happyPath db
  simp [recordEventEndpoint, h]

/-! ## C8: experiment activation -/

/-- C8 (counterexample): activating the already-Active experiment
`demoExp` is not a no-op returning the current version — the endpoint
answers HTTP 400 (`alreadyActive`). -/
theorem C8_counterexample :
    (activateExperiment [demoExp] 1).2 = ActivateResult.alreadyActive ∧
      (activateExperiment [demoExp] 1).2 ≠
        ActivateResult.ok demoExp.version := by
  decide

/-- C8 (amended): the activate endpoint performs no allocation validation:
any existing non-Active experiment is activated with its version
incremented, whatever its variants look like; activating an already-Active
experiment fails with HTTP 400; the sum-to-100 / single-control rules are
enforced only at creation time by `ExperimentCreate.validate_variants`. -/
theorem C8_activation (exps : List Experiment) (expId : Nat)
    (e : Experiment)
    (hfind : exps.find? (fun x => x.id == expId) = some e) :
    (e.status ≠ ExpStatus.active →
        (activateExperiment exps expId).2 =
          ActivateResult.ok (e.version + 1)) ∧
    (e.status = ExpStatus.active →
        activateExperiment exps expId = (exps, ActivateResult.alreadyActive)) ∧
    (∀ vs : List VariantCreate, validateVariants vs = true →
        (vs.map (fun v => v.allocation_pct)).sum = 100 ∧
          (vs.filter (fun v => v.is_control)).length = 1) := by
  refine ⟨?_, ?_, ?_⟩
  · intro hne
    simp only [activateExperiment, hfind]
    rw [if_neg hne]
  · intro heq
    simp only [activateExperiment, hfind]
    rw [if_pos heq]
  · intro vs hv
    unfold validateVariants at hv
    simp only [Bool.and_eq_true, beq_iff_eq] at hv
    exact ⟨hv.1.1, hv.1.2⟩

/-- C8 (witness): the Draft experiment `demoDraftExp`, whose allocations
sum to 90 with no control variant, still activates successfully, bumping
its version from 3 to 4. -/
theorem C8_witness :
    [demoDraftExp].find? (fun x => x.id == 2) = some demoDraftExp ∧
      demoDraftExp.status ≠ ExpStatus.active ∧
      (activateExperiment [demoDraftExp] 2).2 =
        ActivateResult.ok (demoDraftExp.version + 1) :=
  ⟨by decide, by decide,
    (C8_activation [demoDraftExp] 2 demoDraftExp (by decide)).1 (by decide)⟩

/-! ## C5: the outbox processor -/

/-- C5 (counterexample): the lease query orders by `created_at`, not by
id: with row 1 created at time 2 and row 2 created at time 1 the processor
selects them in the order `[2, 1]`, not in ascending id order `[1, 2]`. -/
theorem C5_counterexample :
    ((leaseRows (fun _ => false) demoOutboxRows).map
        (fun r => r.id) = [2, 1]) ∧
      ¬ ((leaseRows (fun _ => false) demoOutboxRows).map
          (fun r => r.id) = [1, 2]) := by
  decide

/-- C5 (amended): each run selects at most `batch_size` unlocked rows with
null `processed_at`, ordered by `created_at` ascending (the code orders by
`created_at`, not by id); a selected row whose publish succeeded reappears
with `processed_at` set to the commit time, and any other row — in
particular one whose publish failed — reappears unchanged, its
`processed_at` still null so a later run retries it. -/
theorem C5_outbox_processor (locked publishOk : Nat → Bool) (now : Int)
    (rows : List OutboxRow) :
    (leaseRows locked rows).length ≤ outboxBatchSize ∧
    (∀ r ∈ leaseRows locked rows,
        r ∈ rows ∧ r.processed_at = none ∧ locked r.id = false) ∧
    (leaseRows locked rows).Pairwise
      (fun a b => a.created_at ≤ b.created_at) ∧
    (∀ r ∈ rows,
        ((leaseRows locked rows).any (fun l => l.id == r.id) &&
            publishOk r.id) = false →
          r ∈ processOutbox locked publishOk now rows) ∧
    (∀ r ∈ rows,
        ((leaseRows locked rows).any (fun l => l.id == r.id) &&
            publishOk r.id) = true →
          { r with processed_at := some now } ∈
            processOutbox locked publishOk now rows) := by
  refine ⟨?_, ?_, ?_, ?_, ?_⟩
  · exact List.length_take_le _ _
  · intro r hr
    have hr2 : r ∈ sortBy (fun a b => decide (a.created_at ≤ b.created_at))
        (rows.filter (fun x => x.processed_at == none && !locked x.id)) :=
      List.mem_of_mem_take hr
    have hr3 : r ∈ rows.filter
        (fun x => x.processed_at == none && !locked x.id) :=
      (mem_sortBy _ r _).mp hr2
    rcases List.mem_filter.mp hr3 with ⟨hmem, hcond⟩
    simp only [Bool.and_eq_true, beq_iff_eq, Bool.not_eq_true'] at hcond
    exact ⟨hmem, hcond.1, hcond.2⟩
  · have hs := pairwise_sortBy
      (fun a b : OutboxRow => decide (a.created_at ≤ b.created_at))
      (by intro a b c hab hbc
          exact decide_eq_true (le_trans (of_decide_eq_true hab)
            (of_decide_eq_true hbc)))
      (by intro a b
          rcases le_total a.created_at b.created_at with h | h
          · exact Or.inl (decide_eq_true h)
          · exact Or.inr (decide_eq_true h))
      (rows.filter (fun x => x.processed_at == none && !locked x.id))
    have ht := List.Pairwise.sublist (List.take_sublist outboxBatchSize _) hs
    exact ht.imp (fun h => of_decide_eq_true h)
  · intro r hr hcond
    unfold processOutbox
    refine List.mem_map.mpr ⟨r, hr, ?_⟩
    rw [hcond]
    simp
  · intro r hr hcond
    unfold processOutbox
    refine List.mem_map.mpr ⟨r, hr, ?_⟩
    rw [hcond]
    simp

/-- C5 (witness): with both demo rows unlocked and every publish failing,
row 1 is leased yet reappears with `processed_at` still null. -/
theorem C5_witness :
    obRow1 ∈ demoOutboxRows ∧
      (((leaseRows (fun _ => false) demoOutboxRows).any
          (fun l => l.id == obRow1.id) && (fun _ : Nat => false) obRow1.id)
        = false) ∧
      obRow1 ∈ processOutbox (fun _ => false) (fun _ => false) 7
        demoOutboxRows :=
  ⟨by decide, by decide,
    (C5_outbox_processor (fun _ => false) (fun _ => false) 7
        demoOutboxRows).2.2.2.1 obRow1 (by decide) (by decide)⟩

/-! ## C10: the minimum-sample threshold -/

/-- C10 (counterexample): with `min_sample = 100`, variant `B`
(50 unique users) is dropped from the v2 results entirely — it gets no
confidence interval, but its users are also not counted in the reported
raw totals, which sum to 500, not 550. -/
theorem C10_counterexample :
    ((processVariantsV2 true 100 demoMetrics).filter
        (fun d => d.variant_key == "B")) = [] ∧
      reportedUsers (processVariantsV2 true 100 demoMetrics) = 500 ∧
      ¬ reportedUsers (processVariantsV2 true 100 demoMetrics) = 550 := by
  decide

/-- C10 (amended): a variant whose `unique_users` is below `min_sample` is
excluded from the results output entirely: the v2 service keeps exactly
the variants meeting the threshold (so the excluded variants appear in no
raw total of the report either), and in the v1 service the
`HAVING count(distinct user_id) >= min_sample` clause removes the group
rows below the threshold from every aggregate. -/
theorem C10_min_sample (includeCI : Bool) (minSample : Nat)
    (ms : List VariantMetricsIn) :
    processVariantsV2 includeCI minSample ms =
      (ms.filter (fun v => decide (minSample ≤ v.unique_users))).map
        (toVariantOut includeCI) ∧
    (∀ d ∈ processVariantsV2 includeCI minSample ms,
        minSample ≤ d.unique_users) ∧
    (∀ (minS : Nat) (rows : List GroupRow), ∀ r ∈ rows,
        r.unique_users < minS → r ∉ havingMinSample minS rows) := by
  refine ⟨?_, ?_, ?_⟩
  · induction ms with
    | nil => rfl
    | cons v vs ih =>
        by_cases h : v.unique_users < minSample
        · have h2 : decide (minSample ≤ v.unique_users) = false := by
            simpa using Nat.not_le.mpr h
          simp [processVariantsV2, List.filterMap_cons, if_pos h,
            List.filter_cons, h2] at ih ⊢
          exact ih
        · have h2 : decide (minSample ≤ v.unique_users) = true := by
            simpa using Nat.not_lt.mp h
          simp [processVariantsV2, List.filterMap_cons, if_neg h,
            List.filter_cons, h2] at ih ⊢
          exact ih
  · intro d hd
    rcases List.mem_filterMap.mp hd with ⟨v, hv, hmk⟩
    by_cases h : v.unique_users < minSample
    · rw [if_pos h] at hmk
      exact absurd hmk (by simp)
    · rw [if_neg h] at hmk
      have : d = toVariantOut includeCI v := by
        injection hmk with h2
        exact h2.symm
      rw [this]
      exact Nat.not_lt.mp h
  · intro minS rows r hr hlt hmem
    rcases List.mem_filter.mp hmem with ⟨_, hcond⟩
    exact absurd (of_decide_eq_true hcond) (Nat.not_le.mpr hlt)

/-- C10 (witness): group row `grB` (30 unique users) is removed by the
`HAVING` clause at `min_sample = 100`, and the surviving v2 variants all
meet the threshold. -/
theorem C10_witness :
    grB ∈ demoGroupRows ∧ grB.unique_users < 100 ∧
      grB ∉ havingMinSample 100 demoGroupRows :=
  ⟨by decide, by decide,
    (C10_min_sample true 100 demoMetrics).2.2 100 demoGroupRows grB
      (by decide) (by decide)⟩

/-! ## C7: bulk-recorded events never enter metrics -/

/-- C7 (confirmed): every event row inserted by the bulk path
(`record_bulk_events`, wired to `POST /events/batch`) has `variant_id` and
`assignment_at` both null — the `INSERT` column list contains neither —
and therefore fails the metric filter `timestamp >= assignment_at` for
every window, event-type set and property filter, so batch-recorded
events are never included in any metric computation. -/
theorem C7_bulk_events_never_in_metrics (users : List String)
    (evs : List BulkEventIn) (r : EventRow)
    (hr : r ∈ (recordBulkEventsTx users evs).events) :
    r.variant_id = none ∧ r.assignment_at = none ∧
      ∀ (expId : Nat) (startD endD : Int)
        (eventTypes : Option (List String))
        (filters : List (String × String)),
        postgresEventFilter expId startD endD eventTypes filters r =
          false := by
  have hfields : r.variant_id = none ∧ r.assignment_at = none := by
    unfold recordBulkEventsTx at hr
    split at hr
    · simp at hr
    · split at hr
      · rcases List.mem_map.mp hr with ⟨p, _, hrp⟩
        rw [← hrp]
        exact ⟨rfl, rfl⟩
      · simp at hr
  refine ⟨hfields.1, hfields.2, ?_⟩
  intro expId startD endD eventTypes filters
  unfold postgresEventFilter
  rw [hfields.2]
  simp

/-- C7 (witness): the bulk row built from `bevGood` is committed by the
bulk path, carries null `assignment_at`, and is rejected by the metric
filter on a window that contains its timestamp. -/
theorem C7_witness :
    bulkEventRow 0 bevGood ∈ (recordBulkEventsTx ["u1"] [bevGood]).events ∧
      (bulkEventRow 0 bevGood).assignment_at = none ∧
      postgresEventFilter 1 0 10 none [] (bulkEventRow 0 bevGood) =
        false := by
  have h := C7_bulk_events_never_in_metrics ["u1"] [bevGood]
    (bulkEventRow 0 bevGood) (by decide)
  exact ⟨by decide, h.2.1, h.2.2 1 0 10 none []⟩

/-! ## C3: one outbox row per domain write -/

/-- C3 (counterexample): a one-event batch through the bulk path commits
its event row (`recorded = 1`) with an empty outbox — there is no outbox
row at all for that committed domain write, let alone exactly one. -/
theorem C3_counterexample :
    (recordBulkEventsTx ["u1"] [bevGood]).result.recorded = 1 ∧
      (recordBulkEventsTx ["u1"] [bevGood]).outbox = [] := by
  decide

/-- C3 (amended): the single-write paths keep the invariant — an
assignment creation stages exactly one `assignment.created` row for its
aggregate (plus exactly one `assignment.enrolled` row when enrolling, and
no `event.created` row), and a single recorded event stages exactly one
`event.created` row keyed by the event id — but the bulk event path
commits its event rows with no outbox rows in the transaction. -/
theorem C3_outbox_per_write :
    (∀ (hashSeed : String) (e : Experiment) (uid : String) (enroll : Bool)
        (now : Int) (a : AssignmentDict) (obs : List OutboxRow),
        createAssignmentTx hashSeed e uid enroll now = some (a, obs) →
          countMatching obs "assignment" (assignmentAggId e.id uid)
              OutboxType.assignmentCreated = 1 ∧
            countMatching obs "assignment" (assignmentAggId e.id uid)
                OutboxType.assignmentEnrolled =
              (if enroll then 1 else 0) ∧
            countMatching obs "assignment" (assignmentAggId e.id uid)
              OutboxType.eventCreated = 0) ∧
    (∀ (oid : Nat) (createdAt : Int) (eid : Nat) (a : AssignmentDict)
        (ts : Int),
        countMatching [mkEventOutbox oid createdAt eid a ts] "event"
            (Nat.repr eid) OutboxType.eventCreated = 1) ∧
    (∀ (users : List String) (evs : List BulkEventIn),
        (recordBulkEventsTx users evs).outbox = []) := by
  refine ⟨?_, ?_, ?_⟩
  · intro hashSeed e uid enroll now a obs h
    unfold createAssignmentTx at h
    split at h
    · cases hcv : calculateVariant hashSeed e uid with
      | none =>
          simp only [hcv] at h
          exact absurd h (by simp)
      | some v =>
          simp only [hcv, Option.some.injEq, Prod.mk.injEq] at h
          rcases h with ⟨_, hobs⟩
          rw [← hobs]
          cases enroll with
          | false => simp [countMatching, List.filter]
          | true => simp [countMatching, List.filter]
    · simp at h
  · intro oid createdAt eid a ts
    simp [countMatching, mkEventOutbox, List.filter]
  · intro users evs
    unfold recordBulkEventsTx
    split
    · rfl
    · split <;> rfl

/-- C3 (witness): creating the enrolled assignment of `user_42` in the
demo experiment stages exactly one `assignment.created` outbox row for
aggregate `1:user_42` in the same transaction. -/
theorem C3_witness :
    createAssignmentTx "hs" demoExp "user_42" true 100 =
        some (demoCreatedAsg, demoCreatedObs) ∧
      countMatching demoCreatedObs "assignment"
          (assignmentAggId 1 "user_42") OutboxType.assignmentCreated =
        1 := by
  have h := C3_outbox_per_write.1 "hs" demoExp "user_42" true 100
    demoCreatedAsg demoCreatedObs (by decide)
  exact ⟨by decide, h.1⟩

/-! ## C2: event validity flag and post-assignment filter -/

/-- C2 (confirmed): the `event.created` outbox payload of a recorded
event has `is_valid = true` exactly when the event timestamp is at or
after the denormalized assignment timestamp (equality counts as valid),
and every event row passing the analytics row filter satisfies
`timestamp >= assignment_at`. -/
theorem C2_validity_and_filter :
    (∀ (oid : Nat) (createdAt : Int) (eid : Nat) (a : AssignmentDict)
        (ts : Int),
        ((mkEventOutbox oid createdAt eid a ts).payloadIsValid =
            some true ↔ a.assigned_at ≤ ts)) ∧
    (∀ (expId : Nat) (startD endD : Int)
        (eventTypes : Option (List String))
        (filters : List (String × String)) (rows : List EventRow),
        ∀ r ∈ rows.filter
            (postgresEventFilter expId startD endD eventTypes filters),
          ∃ t, r.assignment_at = some t ∧ t ≤ r.timestamp) := by
  constructor
  · intro oid createdAt eid a ts
    unfold mkEventOutbox
    simp
  · intro expId startD endD eventTypes filters rows r hr
    rcases List.mem_filter.mp hr with ⟨_, hcond⟩
    unfold postgresEventFilter at hcond
    cases hassign : r.assignment_at with
    | none =>
        rw [hassign] at hcond
        simp at hcond
    | some t =>
        rw [hassign] at hcond
        simp only [Bool.and_eq_true, decide_eq_true_eq] at hcond
        exact ⟨t, rfl, hcond.1.1.2⟩

/-- C2 (witness): a conversion at time 5 for an assignment made at time 3
gets `is_valid = true`, passes the filter on the window `[0, 10]`, and
indeed satisfies the post-assignment rule. -/
theorem C2_witness :
    ((mkEventOutbox 0 5 7 demoAsgDict 5).payloadIsValid = some true ↔
        demoAsgDict.assigned_at ≤ 5) ∧
      demoFilteredRow ∈
        [demoFilteredRow].filter (postgresEventFilter 1 0 10 none []) ∧
      (∃ t, demoFilteredRow.assignment_at = some t ∧
        t ≤ demoFilteredRow.timestamp) := by
  have h := C2_validity_and_filter
  exact ⟨h.1 0 5 7 demoAsgDict 5, by decide,
    h.2 1 0 10 none [] [demoFilteredRow] demoFilteredRow (by decide)⟩

/-! ## C4: batch semantics -/

/-- C4 (counterexample): the `EventService.record_batch_events` path is
not all-or-nothing: with user `u1` present and user `ghost` missing, the
batch `[bevGood, bevGhost]` reports `recorded = 1`, `failed = 1`, and one
event row stays committed — not the whole-batch failure with zero
recorded rows the claim requires. -/
theorem C4_counterexample :
    (recordBatchEventsLoop "hs" demoDB 0 [bevGood, bevGhost] 3).2.1 = 1 ∧
      (recordBatchEventsLoop "hs" demoDB 0 [bevGood, bevGhost] 3).2.2 = 1 ∧
      (recordBatchEventsLoop "hs" demoDB 0
          [bevGood, bevGhost] 3).1.events.length = 1 := by
  decide

/-- Helper: one `record_event` call grows the committed event rows by one
exactly when it succeeded. -/
theorem recordEventOnDB_events_length (hashSeed : String) (db : DB)
    (eid : Nat) (ev : BulkEventIn) (now : Int) :
    ((recordEventOnDB hashSeed db eid ev now).1).events.length =
      db.events.length +
        (if (recordEventOnDB hashSeed db eid ev now).2 then 1 else 0) := by
  unfold recordEventOnDB
  split
  · split <;> simp
  · split
    · simp
    · split <;> (try split) <;> simp

/-- C4 (amended): the bulk path wired to `POST /events/batch`
(`record_bulk_events`) is all-or-nothing — a batch whose rows all
reference existing users commits them all, and a batch with any missing
user commits nothing, reporting zero recorded rows and a single
batch-level error — while the `EventService.record_batch_events` path
commits row by row: it reports per-row successes and failures summing to
the batch size, and exactly the successful rows stay committed. -/
theorem C4_batch_paths (users : List String) (evs : List BulkEventIn) :
    (evs ≠ [] → evs.all (fun ev => users.contains ev.user_id) = true →
        (recordBulkEventsTx users evs).result.recorded = evs.length ∧
          (recordBulkEventsTx users evs).result.failed = 0 ∧
          (recordBulkEventsTx users evs).events.length = evs.length) ∧
    (evs ≠ [] → evs.all (fun ev => users.contains ev.user_id) = false →
        (recordBulkEventsTx users evs).result.recorded = 0 ∧
          (recordBulkEventsTx users evs).result.failed = evs.length ∧
          (recordBulkEventsTx users evs).result.errors = 1 ∧
          (recordBulkEventsTx users evs).events = []) ∧
    (∀ (hashSeed : String) (db : DB) (eidBase : Nat) (now : Int),
        (recordBatchEventsLoop hashSeed db eidBase evs now).2.1 +
            (recordBatchEventsLoop hashSeed db eidBase evs now).2.2 =
          evs.length ∧
          (recordBatchEventsLoop hashSeed db eidBase
              evs now).1.events.length =
            db.events.length +
              (recordBatchEventsLoop hashSeed db eidBase evs now).2.1) := by
  refine ⟨?_, ?_, ?_⟩
  · intro hne hall
    unfold recordBulkEventsTx
    rw [if_neg hne, if_pos hall]
    simp
  · intro hne hfail
    unfold recordBulkEventsTx
    rw [if_neg hne, if_neg (by rw [hfail]; simp)]
    simp
  · intro hashSeed db eidBase now
    induction evs generalizing db eidBase with
    | nil => simp [recordBatchEventsLoop]
    | cons ev rest ih =>
        have hlen := recordEventOnDB_events_length hashSeed db eidBase ev now
        rcases ih (recordEventOnDB hashSeed db eidBase ev now).1
          (eidBase + 1) with ⟨ih1, ih2⟩
        simp only [recordBatchEventsLoop, List.length_cons]
        cases hs : (recordEventOnDB hashSeed db eidBase ev now).2
        · rw [hs] at hlen
          simp at hlen ⊢
          constructor <;> omega
        · rw [hs] at hlen
          simp at hlen ⊢
          constructor <;> omega

/-! ## C1: deterministic variant calculation -/

theorem cumBuckets_cons (v : Variant) (vs : List Variant) :
    cumBuckets (v :: vs) = variantBuckets v + cumBuckets vs := by
  simp [cumBuckets]

/-- When the bucket lies at or beyond the total cumulative range, the
selection loop falls through. -/
theorem selectByBucket_none (bucket : Nat) (vs : List Variant) (cum : Nat)
    (h : cum + cumBuckets vs ≤ bucket) :
    selectByBucket bucket cum vs = none := by
  induction vs generalizing cum with
  | nil => rfl
  | cons v rest ih =>
      rw [cumBuckets_cons] at h
      unfold selectByBucket
      rw [if_neg (by omega)]
      exact ih (cum + variantBuckets v) (by omega)

/-- When the bucket lies inside the total cumulative range, the selection
loop returns the variant whose cumulative range contains the bucket. -/
theorem selectByBucket_spec (bucket : Nat) (vs : List Variant) (cum : Nat)
    (hcum : cum ≤ bucket) (hlt : bucket < cum + cumBuckets vs) :
    ∃ i, ∃ hi : i < vs.length,
      selectByBucket bucket cum vs = some (vs.get ⟨i, hi⟩) ∧
        cum + cumBuckets (vs.take i) ≤ bucket ∧
        bucket < cum + cumBuckets (vs.take (i + 1)) := by
  induction vs generalizing cum with
  | nil =>
      exact absurd hlt (by simp [cumBuckets]; omega)
  | cons v rest ih =>
      by_cases h : bucket < cum + variantBuckets v
      · refine ⟨0, by simp, ?_, ?_, ?_⟩
        · unfold selectByBucket
          rw [if_pos h]
          rfl
        · simpa [cumBuckets] using hcum
        · simpa [cumBuckets_cons, cumBuckets] using h
      · have h2 : cum + variantBuckets v ≤ bucket := Nat.not_lt.mp h
        have hlt2 : bucket < cum + variantBuckets v + cumBuckets rest := by
          rw [cumBuckets_cons] at hlt
          omega
        rcases ih (cum + variantBuckets v) h2 hlt2 with
          ⟨i, hi, hsel, hlo, hhi⟩
        refine ⟨i + 1, by simpa using Nat.succ_lt_succ hi, ?_, ?_, ?_⟩
        · unfold selectByBucket
          rw [if_neg h]
          exact hsel
        · rw [List.take_succ_cons, cumBuckets_cons]
          omega
        · rw [List.take_succ_cons, cumBuckets_cons]
          omega

/-- C1 (counterexample): the v2 assignment service hashes the
concatenation `experiment_id:user_id:seed`, not `user_id:seed:hash_seed`:
with experiment 1, seed `s1`, user `user_42` and hash seed `hs`, the v2
bucket is 3075 while the bucket the claim prescribes is 7263. -/
theorem C1_counterexample :
    hashBucketV2 "hs" 1 "user_42" (some "s1") ≠
      murmur3_32 (utf8 ("user_42" ++ ":" ++ "s1" ++ ":" ++ "hs")) %
        bucketSize := by
  decide

/-- C1 (amended): the claim holds for `AssignmentService._calculate_variant`
(v1): with the bucket equal to the unsigned 32-bit MurmurHash3 of
`user_id:seed:hash_seed` reduced modulo N, the selected variant is found
by sorting the variants by id ascending and accumulating
`allocation_pct * N / 100` (integer truncation) into cumulative ranges —
the variant whose range contains the bucket is chosen, and the last
variant absorbs any rounding remainder.  The v2 service instead hashes
`experiment_id:user_id:seed` (see the counterexample). -/
theorem C1_variant_calculation (hashSeed uid : String) (e : Experiment)
    (bucket : Nat)
    (hb : bucket =
      murmur3_32 (utf8 (uid ++ ":" ++ e.seed ++ ":" ++ hashSeed)) %
        bucketSize)
    (hne : e.variants ≠ []) :
    ∃ v, calculateVariant hashSeed e uid = some v ∧
      (bucket < cumBuckets (sortVariantsById e.variants) →
        ∃ i, ∃ hi : i < (sortVariantsById e.variants).length,
          v = (sortVariantsById e.variants).get ⟨i, hi⟩ ∧
            cumBuckets ((sortVariantsById e.variants).take i) ≤ bucket ∧
            bucket <
              cumBuckets ((sortVariantsById e.variants).take (i + 1))) ∧
      (cumBuckets (sortVariantsById e.variants) ≤ bucket →
        (sortVariantsById e.variants).getLast? = some v) := by
  subst hb
  have hvs : sortVariantsById e.variants ≠ [] := by
    intro hnil
    apply hne
    have hlen := length_sortBy (fun a b : Variant => decide (a.id ≤ b.id))
      e.variants
    rw [sortVariantsById] at hnil
    rw [hnil] at hlen
    exact List.eq_nil_of_length_eq_zero hlen.symm
  by_cases hcase :
      murmur3_32 (utf8 (uid ++ ":" ++ e.seed ++ ":" ++ hashSeed)) %
        bucketSize < cumBuckets (sortVariantsById e.variants)
  · rcases selectByBucket_spec
        (murmur3_32 (utf8 (uid ++ ":" ++ e.seed ++ ":" ++ hashSeed)) %
          bucketSize)
        (sortVariantsById e.variants) 0 (Nat.zero_le _)
        (by simpa using hcase) with ⟨i, hi, hsel, hlo, hhi⟩
    refine ⟨(sortVariantsById e.variants).get ⟨i, hi⟩, ?_, ?_, ?_⟩
    · simp only [calculateVariant, hashBucketV1]
      rw [hsel]
    · intro _
      exact ⟨i, hi, rfl, by simpa using hlo, by simpa using hhi⟩
    · intro hge
      exact absurd hcase (by omega)
  · have hge : cumBuckets (sortVariantsById e.variants) ≤
        murmur3_32 (utf8 (uid ++ ":" ++ e.seed ++ ":" ++ hashSeed)) %
          bucketSize := Nat.not_lt.mp hcase
    have hnone := selectByBucket_none
      (murmur3_32 (utf8 (uid ++ ":" ++ e.seed ++ ":" ++ hashSeed)) %
        bucketSize)
      (sortVariantsById e.variants) 0 (by simpa using hge)
    refine ⟨(sortVariantsById e.variants).getLast hvs, ?_, ?_, ?_⟩
    · simp only [calculateVariant, hashBucketV1]
      rw [hnone]
      exact List.getLast?_eq_getLast _ hvs
    · intro hlt
      exact absurd hlt (by omega)
    · intro _
      exact List.getLast?_eq_getLast _ hvs

/-- C1 (witness): for the demo experiment (seed `s1`, variants
control/green/red with allocations 33/33/34) and user `user_42` under
hash seed `hs`, the bucket is 7263 and the v1 service assigns the variant
whose cumulative range contains it. -/
theorem C1_witness :
    (7263 =
        murmur3_32 (utf8 ("user_42" ++ ":" ++ demoExp.seed ++ ":" ++ "hs"))
          % bucketSize) ∧
      demoExp.variants ≠ [] ∧
      (∃ v, calculateVariant "hs" demoExp "user_42" = some v ∧
        (7263 < cumBuckets (sortVariantsById demoExp.variants) →
          ∃ i, ∃ hi : i < (sortVariantsById demoExp.variants).length,
            v = (sortVariantsById demoExp.variants).get ⟨i, hi⟩ ∧
              cumBuckets ((sortVariantsById demoExp.variants).take i) ≤
                7263 ∧
              7263 <
                cumBuckets
                  ((sortVariantsById demoExp.variants).take (i + 1))) ∧
        (cumBuckets (sortVariantsById demoExp.variants) ≤ 7263 →
          (sortVariantsById demoExp.variants).getLast? = some v)) :=
  ⟨by decide, by decide,
    C1_variant_calculation "hs" "user_42" demoExp 7263 (by decide)
      (by decide)⟩

/-! ## C9: Wilson confidence interval bounds -/

/-- The Wilson center lies within one margin of the sample proportion:
`center - margin ≤ p ≤ center + margin` for all `p ∈ [0, 1]`, `n > 0` and
`z ≥ 0`. -/
theorem wilson_center_margin_bounds (p nr z : ℝ) (hn : 0 < nr) (hz : 0 ≤ z)
    (hp0 : 0 ≤ p) (hp1 : p ≤ 1) :
    (p + z ^ 2 / (2 * nr)) / (1 + z ^ 2 / nr) -
        z * Real.sqrt (p * (1 - p) / nr + z ^ 2 / (4 * nr ^ 2)) /
          (1 + z ^ 2 / nr) ≤ p ∧
      p ≤ (p + z ^ 2 / (2 * nr)) / (1 + z ^ 2 / nr) +
          z * Real.sqrt (p * (1 - p) / nr + z ^ 2 / (4 * nr ^ 2)) /
            (1 + z ^ 2 / nr) := by
  have hden : (0 : ℝ) < 1 + z ^ 2 / nr := by positivity
  have hpp : (0 : ℝ) ≤ p * (1 - p) / nr :=
    div_nonneg (mul_nonneg hp0 (by linarith)) hn.le
  have hE0 : z ^ 2 / (4 * nr ^ 2) ≤
      p * (1 - p) / nr + z ^ 2 / (4 * nr ^ 2) := by linarith
  have hsq : Real.sqrt (z ^ 2 / (4 * nr ^ 2)) = z / (2 * nr) := by
    have h4 : z ^ 2 / (4 * nr ^ 2) = (z / (2 * nr)) ^ 2 := by
      rw [div_pow]
      congr 1
      ring
    rw [h4, Real.sqrt_sq (by positivity)]
  have h1 : z ^ 2 / (2 * nr) ≤
      z * Real.sqrt (p * (1 - p) / nr + z ^ 2 / (4 * nr ^ 2)) := by
    have hmono := Real.sqrt_le_sqrt hE0
    rw [hsq] at hmono
    calc z ^ 2 / (2 * nr) = z * (z / (2 * nr)) := by ring
    _ ≤ z * Real.sqrt (p * (1 - p) / nr + z ^ 2 / (4 * nr ^ 2)) :=
        mul_le_mul_of_nonneg_left hmono hz
  have h2 : (0 : ℝ) ≤ p * (z ^ 2 / nr) := by positivity
  have h3 : p * (z ^ 2 / nr) ≤ z ^ 2 / nr :=
    mul_le_of_le_one_left (by positivity) hp1
  have hexp : p * (1 + z ^ 2 / nr) = p + p * (z ^ 2 / nr) := by ring
  constructor
  · rw [div_sub_div_same, div_le_iff₀ hden, hexp]
    linarith
  · rw [div_add_div_same, le_div_iff₀ hden, hexp]
    have h6 : z ^ 2 / nr = z ^ 2 / (2 * nr) + z ^ 2 / (2 * nr) := by
      field_simp [hn.ne']
      ring
    linarith

/-- C9 (counterexample): the v2 interval is reported in percent and is
capped at 100, not 1: with one conversion in one trial (and any positive
`z`, here 2) the upper endpoint is 100, violating `u ≤ 1`. -/
theorem C9_counterexample : ¬ ((wilsonCIV2 1 1 2).2 ≤ 1) := by
  have h : (wilsonCIV2 1 1 2).2 = 100 := by
    unfold wilsonCIV2
    rw [if_neg (by norm_num)]
    have harg : (((1 : Nat) : ℝ) / ((1 : Nat) : ℝ) *
        (1 - ((1 : Nat) : ℝ) / ((1 : Nat) : ℝ)) +
          (2 : ℝ) ^ 2 / (4 * ((1 : Nat) : ℝ))) / ((1 : Nat) : ℝ) = 1 := by
      norm_num
    dsimp only
    rw [harg, Real.sqrt_one]
    norm_num
  rw [h]
  norm_num

/-- C9 (amended): for `0 < n` trials, `s ≤ n` conversions and any
nonnegative `z` (which models `norm.ppf((1 + confidence) / 2)`), the v1
interval satisfies `0 ≤ l ≤ s/n ≤ u ≤ 1` as the claim states, while the
v2 interval is in percentage points: `0 ≤ l ≤ 100·(s/n) ≤ u ≤ 100`, its
upper endpoint capped at 100 rather than 1. -/
theorem C9_wilson_bounds (s n : Nat) (z : ℝ) (hn : 0 < n) (hs : s ≤ n)
    (hz : 0 ≤ z) :
    (0 ≤ (wilsonCI s n z).1 ∧
      (wilsonCI s n z).1 ≤ (s : ℝ) / (n : ℝ) ∧
      (s : ℝ) / (n : ℝ) ≤ (wilsonCI s n z).2 ∧
      (wilsonCI s n z).2 ≤ 1) ∧
    (0 ≤ (wilsonCIV2 s n z).1 ∧
      (wilsonCIV2 s n z).1 ≤ 100 * ((s : ℝ) / (n : ℝ)) ∧
      100 * ((s : ℝ) / (n : ℝ)) ≤ (wilsonCIV2 s n z).2 ∧
      (wilsonCIV2 s n z).2 ≤ 100) := by
  have hne : n ≠ 0 := Nat.pos_iff_ne_zero.mp hn
  have hnr : (0 : ℝ) < (n : ℝ) := by exact_mod_cast hn
  have hp0 : (0 : ℝ) ≤ (s : ℝ) / (n : ℝ) := by positivity
  have hp1 : (s : ℝ) / (n : ℝ) ≤ 1 :=
    div_le_one_of_le₀ (by exact_mod_cast hs) (Nat.cast_nonneg n)
  have hcore := wilson_center_margin_bounds ((s : ℝ) / (n : ℝ)) (n : ℝ) z
    hnr hz hp0 hp1
  have harg : ((s : ℝ) / (n : ℝ) * (1 - (s : ℝ) / (n : ℝ)) +
      z ^ 2 / (4 * (n : ℝ))) / (n : ℝ) =
        (s : ℝ) / (n : ℝ) * (1 - (s : ℝ) / (n : ℝ)) / (n : ℝ) +
          z ^ 2 / (4 * (n : ℝ) ^ 2) := by
    field_simp [hnr.ne']
    ring
  constructor
  · unfold wilsonCI
    rw [if_neg hne]
    dsimp only
    refine ⟨le_max_left _ _, max_le hp0 hcore.1, le_min hp1 hcore.2,
      min_le_left _ _⟩
  · unfold wilsonCIV2
    rw [if_neg hne]
    dsimp only
    rw [harg]
    have hl : ((s : ℝ) / (n : ℝ) + z ^ 2 / (2 * (n : ℝ))) /
          (1 + z ^ 2 / (n : ℝ)) -
        z * Real.sqrt ((s : ℝ) / (n : ℝ) * (1 - (s : ℝ) / (n : ℝ)) /
            (n : ℝ) + z ^ 2 / (4 * (n : ℝ) ^ 2)) /
          (1 + z ^ 2 / (n : ℝ)) ≤ (s : ℝ) / (n : ℝ) := hcore.1
    have hu : (s : ℝ) / (n : ℝ) ≤
        ((s : ℝ) / (n : ℝ) + z ^ 2 / (2 * (n : ℝ))) /
            (1 + z ^ 2 / (n : ℝ)) +
          z * Real.sqrt ((s : ℝ) / (n : ℝ) * (1 - (s : ℝ) / (n : ℝ)) /
              (n : ℝ) + z ^ 2 / (4 * (n : ℝ) ^ 2)) /
            (1 + z ^ 2 / (n : ℝ)) := hcore.2
    refine ⟨le_max_left _ _, ?_, ?_, min_le_left _ _⟩
    · refine max_le (by positivity) ?_
      calc _ ≤ (s : ℝ) / (n : ℝ) * 100 :=
            mul_le_mul_of_nonneg_right hl (by norm_num)
      _ = 100 * ((s : ℝ) / (n : ℝ)) := by ring
    · refine le_min (by
        calc 100 * ((s : ℝ) / (n : ℝ)) ≤ 100 * 1 := by
              exact mul_le_mul_of_nonneg_left hp1 (by norm_num)
        _ = 100 := by norm_num) ?_
      calc 100 * ((s : ℝ) / (n : ℝ)) = (s : ℝ) / (n : ℝ) * 100 := by ring
      _ ≤ _ := mul_le_mul_of_nonneg_right hu (by norm_num)

/-- C9 (witness): one conversion among four users with `z = 2`. -/
theorem C9_witness :
    0 < 4 ∧ 1 ≤ 4 ∧ (0 : ℝ) ≤ 2 ∧
      ((0 ≤ (wilsonCI 1 4 2).1 ∧
        (wilsonCI 1 4 2).1 ≤ ((1 : Nat) : ℝ) / ((4 : Nat) : ℝ) ∧
        ((1 : Nat) : ℝ) / ((4 : Nat) : ℝ) ≤ (wilsonCI 1 4 2).2 ∧
        (wilsonCI 1 4 2).2 ≤ 1) ∧
      (0 ≤ (wilsonCIV2 1 4 2).1 ∧
        (wilsonCIV2 1 4 2).1 ≤ 100 * (((1 : Nat) : ℝ) / ((4 : Nat) : ℝ)) ∧
        100 * (((1 : Nat) : ℝ) / ((4 : Nat) : ℝ)) ≤ (wilsonCIV2 1 4 2).2 ∧
        (wilsonCIV2 1 4 2).2 ≤ 100)) :=
  ⟨by decide, by decide, zero_le_two,
    C9_wilson_bounds 1 4 2 (by decide) (by decide) zero_le_two⟩

/-- C4 (witness): a bulk batch containing the row of the missing user
`ghost` fails whole: zero recorded, both rows failed, one batch-level
error, nothing committed. -/
theorem C4_witness :
    ([bevGood, bevGhost] ≠ ([] : List BulkEventIn)) ∧
      ([bevGood, bevGhost].all
          (fun ev => ["u1"].contains ev.user_id) = false) ∧
      (recordBulkEventsTx ["u1"] [bevGood, bevGhost]).result.recorded =
        0 ∧
      (recordBulkEventsTx ["u1"] [bevGood, bevGhost]).result.failed = 2 ∧
      (recordBulkEventsTx ["u1"] [bevGood, bevGhost]).result.errors = 1 ∧
      (recordBulkEventsTx ["u1"] [bevGood, bevGhost]).events = [] := by
  have h := (C4_batch_paths ["u1"] [bevGood, bevGhost]).2.1
    (by decide) (by decide)
  exact ⟨by decide, by decide, h.1, h.2.1, h.2.2.1, h.2.2.2⟩

end NeonBlue
